import Mathlib

/-!
Shallow embedding of the idempotent Stripe payment-completion pipeline:
the webhook handler of `src/server/index.ts` (signature gate, metadata
validation, atomic crediting call, retry classification) and the
client-side completion poller of
`src/client/src/components/StripeButton.tsx`.

JavaScript-specific behaviour that matters here is modelled explicitly:
`parseInt` returns `Option Int` (with `none` playing the role of `NaN`),
`||` on strings treats the empty string as falsy, and a comparison
against `NaN` is false.
-/

namespace HomeworkHelper

/-- Does `cs` start with `needle` (character-exact)? -/
def charsStartWith : List Char → List Char → Bool
  | _, [] => true
  | [], _ :: _ => false
  | c :: cs, d :: ds => c = d && charsStartWith cs ds

/-- Does `needle` occur contiguously inside `hay`? -/
def charsContain : List Char → List Char → Bool
  | [], needle => needle.isEmpty
  | c :: cs, needle => charsStartWith (c :: cs) needle || charsContain cs needle

/-- Models JavaScript `hay.includes(needle)` on strings. -/
def strIncludes (hay needle : String) : Bool :=
  charsContain hay.toList needle.toList

/-- Whitespace characters skipped by JavaScript `parseInt`. -/
def jsWhitespace (c : Char) : Bool :=
  c = ' ' || c = '\t' || c = '\n' || c = '\r' || c = '\x0b' || c = '\x0c'

/-- Longest leading run of decimal digits; `none` when there is none
(the `NaN` case of `parseInt`). -/
def decDigitsAux : List Char → Nat → Bool → Option Nat
  | [], acc, seen => if seen then some acc else none
  | c :: cs, acc, seen =>
    if c.isDigit then decDigitsAux cs (acc * 10 + (c.toNat - 48)) true
    else if seen then some acc else none

/-- Value of one hexadecimal digit. -/
def hexDigitVal (c : Char) : Option Nat :=
  if c.isDigit then some (c.toNat - 48)
  else if 97 ≤ c.toNat ∧ c.toNat ≤ 102 then some (c.toNat - 87)
  else if 65 ≤ c.toNat ∧ c.toNat ≤ 70 then some (c.toNat - 55)
  else none

/-- Longest leading run of hexadecimal digits; `none` when there is none. -/
def hexDigitsAux : List Char → Nat → Bool → Option Nat
  | [], acc, seen => if seen then some acc else none
  | c :: cs, acc, seen =>
    match hexDigitVal c with
    | some v => hexDigitsAux cs (acc * 16 + v) true
    | none => if seen then some acc else none

/-- Digit parsing of JavaScript `parseInt` after the sign: a `0x`/`0X`
string is read as hexadecimal, anything else as decimal. -/
def jsParseIntUnsigned (cs : List Char) : Option Int :=
  match cs with
  | '0' :: 'x' :: rest => (hexDigitsAux rest 0 false).map Int.ofNat
  | '0' :: 'X' :: rest => (hexDigitsAux rest 0 false).map Int.ofNat
  | _ => (decDigitsAux cs 0 false).map Int.ofNat

/-- Models JavaScript `parseInt(s)` (no radix argument): skip leading
whitespace, read an optional sign, then the longest digit run. `none`
models `NaN`. -/
def jsParseInt (s : String) : Option Int :=
  match s.toList.dropWhile jsWhitespace with
  | '-' :: rest => (jsParseIntUnsigned rest).map (fun n => -n)
  | '+' :: rest => jsParseIntUnsigned rest
  | cs => jsParseIntUnsigned cs

/-- Models JavaScript `a || b` where `a` is a possibly-absent string:
`undefined`, `null` and `""` are falsy. -/
def jsOrElse (a : Option String) (b : String) : String :=
  match a with
  | some s => if s = "" then b else s
  | none => b

/-- Models the JavaScript comparison `x <= 0` where `x` may be `NaN`
(`none`): every comparison against `NaN` is false. -/
def jsLeZero : Option Int → Bool
  | none => false
  | some n => decide (n ≤ 0)

/-- The fields of a verified Stripe event that the webhook handler
reads: `event.type`, `event.data.object.id`, the two metadata keys and
`client_reference_id`. Absent fields are `none`. -/
structure StripeEvent where
  type : String
  sessionId : String
  metadata_user_id : Option String
  metadata_tokens : Option String
  client_reference_id : Option String
deriving DecidableEq

/-- An inbound webhook request as the handler sees it:
whether `STRIPE_WEBHOOK_SECRET` is configured, whether
`stripe.webhooks.constructEvent` succeeds (signature verification),
and the verified event when it does. -/
structure WebhookRequest where
  secretConfigured : Bool
  signatureValid : Bool
  event : StripeEvent
deriving DecidableEq

/-- A JavaScript error value as the catch block inspects it:
`error.message` and `error.code`, either possibly absent. -/
structure JsError where
  message : Option String
  code : Option String
deriving DecidableEq

/-- The message markers of the catch block:
`error.message?.includes('connection' | 'timeout' | 'ECONNREFUSED')`. -/
def messageHasMarker (e : JsError) : Bool :=
  match e.message with
  | some m => strIncludes m "connection" || strIncludes m "timeout" ||
      strIncludes m "ECONNREFUSED"
  | none => false

/-- Transient-error test of the catch block: a message marker, or
`error.code === 'ENETUNREACH'`. -/
def isTransientError (e : JsError) : Bool :=
  messageHasMarker e || e.code = some "ENETUNREACH"

/-- Status the catch block responds with: 500 for transient errors
(ask Stripe to retry), 200 otherwise (stop retrying). -/
def catchStatus (e : JsError) : Nat :=
  if isTransientError e then 500 else 200

/-- `parseInt(session.metadata?.user_id || session.client_reference_id || '0')`. -/
def resolvedUserId (ev : StripeEvent) : Option Int :=
  jsParseInt (jsOrElse ev.metadata_user_id (jsOrElse ev.client_reference_id "0"))

/-- `parseInt(session.metadata?.tokens || '0')`. -/
def resolvedTokens (ev : StripeEvent) : Option Int :=
  jsParseInt (jsOrElse ev.metadata_tokens "0")

/-- What the handler decides to do with a request, read off the
control flow of the route up to the storage call. -/
inductive HandlerAction where
  | respondNoConfig
  | respondBadSignature
  | respondIgnored
  | respondInvalidPayload
  | attemptCredit (sessionId : String) (userId tokens : Option Int)
deriving DecidableEq

/-- Control flow of `POST /api/webhook/stripe` up to the call of
`storage.completeStripePaymentAndCredit`: missing secret → 500 branch;
verification failure → 400 branch; a `checkout.session.completed`
event has its metadata parsed and checked with
`if (userId <= 0 || tokens <= 0)`; other event types fall through to
`res.sendStatus(200)`. -/
def webhookAction (req : WebhookRequest) : HandlerAction :=
  if !req.secretConfigured then .respondNoConfig
  else if !req.signatureValid then .respondBadSignature
  else if req.event.type = "checkout.session.completed" then
    let userId := resolvedUserId req.event
    let tokens := resolvedTokens req.event
    if jsLeZero userId || jsLeZero tokens then .respondInvalidPayload
    else .attemptCredit req.event.sessionId userId tokens
  else .respondIgnored

/-- Result reported by the atomic complete-and-credit operation. -/
structure CreditResult where
  alreadyCompleted : Bool
  newBalance : Int
deriving DecidableEq

/-- Outcome of the `await storage.completeStripePaymentAndCredit(...)`
call as the handler observes it: a result, or a thrown error. -/
inductive CreditOutcome where
  | ok (r : CreditResult)
  | threw (e : JsError)
deriving DecidableEq

/-- HTTP status the webhook handler responds with, as a function of the
request and of the storage call's outcome: both the already-completed
branch and the fresh-credit branch return 200; a thrown error is
classified by the catch block. -/
def webhookStatus (req : WebhookRequest) (outcome : CreditOutcome) : Nat :=
  match webhookAction req with
  | .respondNoConfig => 500
  | .respondBadSignature => 400
  | .respondIgnored => 200
  | .respondInvalidPayload => 200
  | .attemptCredit _ _ _ =>
    match outcome with
    | .ok _ => 200
    | .threw e => catchStatus e

example : jsParseInt "42" = some 42 := by decide
example : jsParseInt "abc" = none := by decide
example : jsParseInt "-5" = some (-5) := by decide
example : jsParseInt " 0x10" = some 16 := by decide
example : strIncludes "socket timeout while reading" "timeout" = true := by decide
example : strIncludes "boom" "connection" = false := by decide

/-- Status of a `PaymentSession` (§3 of the spec). -/
inductive SessionStatus where
  | pending
  | completed
  | failed
deriving DecidableEq

/-- A `PaymentSession` record of the Session Store. The `sessionId` is
the key under which the store holds the record. -/
structure PaymentSession where
  userId : Int
  tokenAmount : Int
  status : SessionStatus
  completedAt : Option Nat
deriving DecidableEq

/-- The Session Store: sessions keyed by session id, balances keyed by
user id, and the current time used to stamp `completedAt`. -/
structure Store where
  sessions : String → Option PaymentSession
  balances : Int → Int
  now : Nat

/-- Modelled from the spec: `storage.completeStripePaymentAndCredit`
lives in `server/storage.ts`, which is not among the source files; §4.2
specifies it as a single indivisible unit: look up the session by
`sessionId`; if its status is already `completed`, do nothing further
and report `alreadyCompleted = true` with the current balance;
otherwise set status to `completed`, stamp completion time, increment
the user's balance by `tokenAmount`, and report
`alreadyCompleted = false` with the new balance. A session the store
does not hold makes the operation fail (a thrown error on the
JavaScript side). -/
def completeStripePaymentAndCredit (st : Store) (sessionId : String)
    (userId tokenAmount : Int) : Except JsError (Store × CreditResult) :=
  match st.sessions sessionId with
  | none => .error ⟨some "payment session not found", none⟩
  | some s =>
    if s.status = .completed then
      .ok (st, ⟨true, st.balances userId⟩)
    else
      let s' : PaymentSession :=
        { s with status := .completed, completedAt := some st.now }
      let newBal := st.balances userId + tokenAmount
      .ok ({ st with
              sessions := fun k => if k = sessionId then some s' else st.sessions k,
              balances := fun u => if u = userId then newBal else st.balances u },
           ⟨false, newBal⟩)

/-- One invocation of the atomic operation, keeping the store unchanged
when the operation fails. -/
def runCredit (st : Store) (sessionId : String) (userId tokenAmount : Int) :
    Store × Option CreditResult :=
  match completeStripePaymentAndCredit st sessionId userId tokenAmount with
  | .ok r => (r.1, some r.2)
  | .error _ => (st, none)

/-- The store after `n` invocations of the atomic operation with
identical arguments. -/
def storeAfter (st : Store) (sessionId : String) (userId tokenAmount : Int) :
    Nat → Store
  | 0 => st
  | n + 1 => (runCredit (storeAfter st sessionId userId tokenAmount n)
      sessionId userId tokenAmount).1

/-- Result reported by invocation `n + 1` (zero-indexed `n`) of the
atomic operation with identical arguments. -/
def creditOutcomeAt (st : Store) (sessionId : String) (userId tokenAmount : Int)
    (n : Nat) : Option CreditResult :=
  (runCredit (storeAfter st sessionId userId tokenAmount n)
    sessionId userId tokenAmount).2

/-- The full webhook handler over the store: the response status
together with the store it leaves behind. The storage call is the
spec-modelled atomic operation. When the handler would pass `NaN` to
the storage layer (a parse failure that survives the `<= 0` guard) the
storage behaviour is outside both the sources and the spec; no theorem
below depends on that branch. -/
def webhookHandler (st : Store) (req : WebhookRequest) : Nat × Store :=
  match webhookAction req with
  | .respondNoConfig => (500, st)
  | .respondBadSignature => (400, st)
  | .respondIgnored => (200, st)
  | .respondInvalidPayload => (200, st)
  | .attemptCredit sid userId tokens =>
    match userId, tokens with
    | some u, some t =>
      match completeStripePaymentAndCredit st sid u t with
      | .ok (st', _) => (200, st')
      | .error e => (catchStatus e, st)
    | _, _ => (200, st)

/-- What one polling cycle of `pollPaymentStatus` observes: the
`status` field of the `/api/payment-status` response, or a lookup
error (the catch branch). -/
inductive PollObs where
  | status (s : String)
  | lookupError
deriving DecidableEq

/-- Phase of the completion poller. -/
inductive PollerPhase where
  | polling
  | succeeded
  | failedPayment
deriving DecidableEq

/-- Poller state: its phase and how many status lookups it has
performed so far. -/
structure PollerState where
  phase : PollerPhase
  lookups : Nat
deriving DecidableEq

/-- The initial `setTimeout(pollPaymentStatus, 3000)` delay. -/
def initialPollDelayMs : Nat := 3000

/-- The `setTimeout(pollPaymentStatus, 2000)` reschedule delay, used
both on a `pending` observation and on a lookup error. -/
def pollIntervalMs : Nat := 2000

/-- One cycle of `pollPaymentStatus`, driven by the stream `obs` of
observations (`obs n` is what the `n`-th lookup returns): on
`completed` stop in `succeeded`; on `failed` stop in `failedPayment`;
on anything else, or on a lookup error, reschedule after
`pollIntervalMs`. Returns the next state and the delay of the
reschedule, `none` when the poller does not reschedule. -/
def pollStepD (obs : Nat → PollObs) (st : PollerState) :
    PollerState × Option Nat :=
  match st.phase with
  | .polling =>
    let n := st.lookups + 1
    match obs st.lookups with
    | .status s =>
      if s = "completed" then (⟨.succeeded, n⟩, none)
      else if s = "failed" then (⟨.failedPayment, n⟩, none)
      else (⟨.polling, n⟩, some pollIntervalMs)
    | .lookupError => (⟨.polling, n⟩, some pollIntervalMs)
  | _ => (st, none)

/-- The poller state after `n` cycles, starting from the first
scheduled lookup. -/
def pollRun (obs : Nat → PollObs) : Nat → PollerState
  | 0 => ⟨.polling, 0⟩
  | n + 1 => (pollStepD obs (pollRun obs n)).1

/-- An observation on which the poller keeps polling: a lookup error,
or a status that is neither `completed` nor `failed`. -/
def nonTerminalObs : PollObs → Bool
  | .lookupError => true
  | .status s => !(s = "completed") && !(s = "failed")

/-- State of the `StripeButton` component that governs the button:
`createCheckoutSession.isPending` of the mutation and the
`isProcessing` flag. -/
structure ComponentState where
  isPending : Bool
  isProcessing : Bool
deriving DecidableEq, Fintype

/-- The `disabled` prop of the button:
`createCheckoutSession.isPending || isProcessing`. -/
def buttonDisabled (s : ComponentState) : Bool :=
  s.isPending || s.isProcessing

/-- Events that drive the component's state: a click (which calls
`createCheckoutSession.mutate()` only when the button is enabled), the
mutation settling (successfully with a URL and an opened or blocked
checkout window, successfully without a URL, or with an error), and
the poller's observations. -/
inductive UiEvent where
  | click
  | mutationSuccessUrl (windowOpened : Bool)
  | mutationSuccessNoUrl
  | mutationError
  | observeCompleted
  | observeFailed
  | observePendingOrLookupError
deriving DecidableEq, Fintype

/-- Transition function of the component state, read off
`StripeButton`: `setIsProcessing(true)` fires only after the checkout
window opens, `setIsProcessing(false)` fires only in the `completed`
and `failed` branches of `pollPaymentStatus`, and a click on a
disabled button does nothing. -/
def uiStep (s : ComponentState) : UiEvent → ComponentState
  | .click => if buttonDisabled s then s else { s with isPending := true }
  | .mutationSuccessUrl true => { isPending := false, isProcessing := true }
  | .mutationSuccessUrl false => { s with isPending := false }
  | .mutationSuccessNoUrl => { s with isPending := false }
  | .mutationError => { s with isPending := false }
  | .observeCompleted => { s with isProcessing := false }
  | .observeFailed => { s with isProcessing := false }
  | .observePendingOrLookupError => s

/-- A `checkout.session.completed` event carrying the given
metadata strings. -/
def mkEvent (uid tok : String) : StripeEvent :=
  ⟨"checkout.session.completed", "cs_test", some uid, some tok, none⟩

/-- A configured, signature-verified request around `mkEvent`. -/
def reqOk (uid tok : String) : WebhookRequest :=
  ⟨true, true, mkEvent uid tok⟩

/-- A request arriving while `STRIPE_WEBHOOK_SECRET` is unset. -/
def reqNoSecret : WebhookRequest :=
  ⟨false, true, mkEvent "42" "1000"⟩

/-- A request whose signature verification fails. -/
def reqBadSig : WebhookRequest :=
  ⟨true, false, mkEvent "42" "1000"⟩

/-- A verified request carrying an event of another type. -/
def reqOtherType : WebhookRequest :=
  ⟨true, true, ⟨"invoice.paid", "cs_other", none, none, none⟩⟩

/-- A store with no sessions and every balance zero. -/
def emptyStore : Store :=
  ⟨fun _ => none, fun _ => 0, 0⟩

/-- Is `n` an HTTP client-error (4xx) status? -/
def isClientErrorStatus (n : Nat) : Bool :=
  400 ≤ n && n < 500

lemma webhookHandler_noConfig (st : Store) (req : WebhookRequest)
    (h : req.secretConfigured = false) : webhookHandler st req = (500, st) := by
  simp [webhookHandler, webhookAction, h]

lemma webhookHandler_badSig (st : Store) (req : WebhookRequest)
    (hc : req.secretConfigured = true) (h : req.signatureValid = false) :
    webhookHandler st req = (400, st) := by
  simp [webhookHandler, webhookAction, hc, h]

lemma webhookHandler_otherType (st : Store) (req : WebhookRequest)
    (hc : req.secretConfigured = true) (hs : req.signatureValid = true)
    (ht : req.event.type ≠ "checkout.session.completed") :
    webhookHandler st req = (200, st) := by
  simp [webhookHandler, webhookAction, hc, hs, ht]

/-- Claim C5 counterexample: with the webhook secret unconfigured the
handler responds 500, which is not a client-error status, at the
concrete request `reqNoSecret`. -/
theorem c5_counterexample :
    (webhookHandler emptyStore reqNoSecret).1 = 500 ∧
    isClientErrorStatus (webhookHandler emptyStore reqNoSecret).1 = false := by
  decide

/-- Claim C5 (amended): a request arriving while the webhook secret is
unconfigured is rejected with a server-error (500) response and the
store is untouched, so no balance is ever credited. -/
theorem c5_missing_secret_rejected (st : Store) (req : WebhookRequest)
    (h : req.secretConfigured = false) :
    webhookHandler st req = (500, st) :=
  webhookHandler_noConfig st req h

/-- Claim C5 witness at the concrete request `reqNoSecret`. -/
theorem c5_missing_secret_rejected_witness :
    webhookHandler emptyStore reqNoSecret = (500, emptyStore) :=
  c5_missing_secret_rejected emptyStore reqNoSecret rfl

/-- Claim C6: a request whose signature verification fails is rejected
with a client-error 400 response and the store it leaves behind is the
one it found: no session status change and no balance change happens
on the authentication-failure path. -/
theorem c6_bad_signature_rejected (st : Store) (req : WebhookRequest)
    (hc : req.secretConfigured = true) (h : req.signatureValid = false) :
    webhookHandler st req = (400, st) :=
  webhookHandler_badSig st req hc h

/-- Claim C6 witness at the concrete request `reqBadSig`. -/
theorem c6_bad_signature_rejected_witness :
    webhookHandler emptyStore reqBadSig = (400, emptyStore) :=
  c6_bad_signature_rejected emptyStore reqBadSig rfl rfl

/-- Claim C7: a verified event whose type is not
`checkout.session.completed` is acknowledged with 200 and the store is
returned unchanged: no session record and no user balance is read for
mutation or changed. -/
theorem c7_other_events_ignored (st : Store) (req : WebhookRequest)
    (hc : req.secretConfigured = true) (hs : req.signatureValid = true)
    (ht : req.event.type ≠ "checkout.session.completed") :
    webhookHandler st req = (200, st) :=
  webhookHandler_otherType st req hc hs ht

/-- Claim C7 witness at the concrete request `reqOtherType`. -/
theorem c7_other_events_ignored_witness :
    webhookHandler emptyStore reqOtherType = (200, emptyStore) :=
  c7_other_events_ignored emptyStore reqOtherType rfl rfl (by decide)

/-- Claim C2, the code evaluated at the failing input: a verified
`checkout.session.completed` event whose `metadata.user_id` is `"abc"`
resolves to `NaN` (not a strictly positive integer), yet the handler
does not classify it as invalid payload: the JavaScript guard
`userId <= 0` is false for `NaN`, so the handler proceeds to the
crediting call instead of acknowledging without side effects. -/
theorem c2_nan_bypasses_validation :
    resolvedUserId (mkEvent "abc" "50") = none ∧
    webhookAction (reqOk "abc" "50") =
      .attemptCredit "cs_test" none (some 50) ∧
    webhookAction (reqOk "abc" "50") ≠ .respondInvalidPayload := by
  decide

/-- The error of the C3 counterexample: no message marker, but
`error.code === 'ENETUNREACH'`. -/
def errNetUnreach : JsError := ⟨some "boom", some "ENETUNREACH"⟩

/-- An error whose message carries a connection marker. -/
def errConn : JsError := ⟨some "connection refused", none⟩

/-- Claim C3 counterexample: the error `errNetUnreach` has no
connection/timeout marker in its message, yet the webhook responds
500, because the catch block also tests `error.code`. -/
theorem c3_counterexample :
    messageHasMarker errNetUnreach = false ∧
    webhookStatus (reqOk "42" "1000") (.threw errNetUnreach) = 500 := by
  decide

lemma jsLeZero_false_of_pos {n : Int} (h : 0 < n) :
    jsLeZero (some n) = false := by
  simp [jsLeZero]
  omega

lemma webhookAction_credit (req : WebhookRequest) (u t : Int)
    (hc : req.secretConfigured = true) (hs : req.signatureValid = true)
    (ht : req.event.type = "checkout.session.completed")
    (hu : resolvedUserId req.event = some u)
    (htk : resolvedTokens req.event = some t)
    (hup : 0 < u) (htp : 0 < t) :
    webhookAction req = .attemptCredit req.event.sessionId (some u) (some t) := by
  have h1 : jsLeZero (resolvedUserId req.event) = false := by
    rw [hu]; exact jsLeZero_false_of_pos hup
  have h2 : jsLeZero (resolvedTokens req.event) = false := by
    rw [htk]; exact jsLeZero_false_of_pos htp
  simp [webhookAction, hc, hs, ht, h1, h2, hu, htk]
  exact ⟨jsLeZero_false_of_pos hup, jsLeZero_false_of_pos htp⟩

/-- Claim C3 (amended): for a failure thrown during reconciliation of
a verified `checkout.session.completed` event, the webhook responds
500 exactly when the error's message contains a connection/timeout
marker or the error's `code` is `'ENETUNREACH'`; every other failure
yields a 200 non-retry acknowledgment. -/
theorem c3_retry_classification (req : WebhookRequest) (e : JsError) (u t : Int)
    (hc : req.secretConfigured = true) (hs : req.signatureValid = true)
    (ht : req.event.type = "checkout.session.completed")
    (hu : resolvedUserId req.event = some u)
    (htk : resolvedTokens req.event = some t)
    (hup : 0 < u) (htp : 0 < t) :
    (webhookStatus req (.threw e) = 500 ↔
      (messageHasMarker e = true ∨ e.code = some "ENETUNREACH")) ∧
    (webhookStatus req (.threw e) = 200 ↔
      ¬(messageHasMarker e = true ∨ e.code = some "ENETUNREACH")) := by
  have ha := webhookAction_credit req u t hc hs ht hu htk hup htp
  have hst : webhookStatus req (.threw e) = catchStatus e := by
    simp [webhookStatus, ha]
  rw [hst]
  unfold catchStatus isTransientError
  by_cases hm : messageHasMarker e = true
  · simp [hm]
  · by_cases hcode : e.code = some "ENETUNREACH"
    · simp [hm, hcode]
    · simp [hm, hcode]

/-- Claim C3 witness: a thrown error whose message contains
`connection` makes the webhook respond 500 at a concrete request. -/
theorem c3_retry_classification_witness :
    webhookStatus (reqOk "42" "1000") (.threw errConn) = 500 :=
  (c3_retry_classification (reqOk "42" "1000") errConn 42 1000 rfl rfl rfl
    (by decide) (by decide) (by decide) (by decide)).1.mpr
    (Or.inl (by decide))

/-- Claim C9: every inbound webhook request is answered with a status
in {200, 400, 500}; 500 is produced only when the secret is
unconfigured or a reconciliation failure classified transient occurs;
400 only on signature-verification failure; and every other path
responds 200. -/
theorem c9_response_status_classes (req : WebhookRequest)
    (outcome : CreditOutcome) :
    (webhookStatus req outcome = 200 ∨ webhookStatus req outcome = 400 ∨
      webhookStatus req outcome = 500) ∧
    (webhookStatus req outcome = 500 →
      req.secretConfigured = false ∨
        ∃ e, outcome = .threw e ∧ isTransientError e = true) ∧
    (webhookStatus req outcome = 400 →
      req.secretConfigured = true ∧ req.signatureValid = false) ∧
    (req.secretConfigured = true → req.signatureValid = true →
      (∀ e, outcome = .threw e → isTransientError e = false) →
      webhookStatus req outcome = 200) := by
  rcases req with ⟨cfg, sig, ev⟩
  cases cfg
  · have h : webhookStatus ⟨false, sig, ev⟩ outcome = 500 := by
      simp [webhookStatus, webhookAction]
    refine ⟨Or.inr (Or.inr h), fun _ => Or.inl rfl, fun hx => ?_, fun hcfg => ?_⟩
    · rw [h] at hx; omega
    · simp at hcfg
  · cases sig
    · have h : webhookStatus ⟨true, false, ev⟩ outcome = 400 := by
        simp [webhookStatus, webhookAction]
      refine ⟨Or.inr (Or.inl h), fun hx => ?_, fun _ => ⟨rfl, rfl⟩, fun _ hsig => ?_⟩
      · rw [h] at hx; omega
      · simp at hsig
    · by_cases ht : ev.type = "checkout.session.completed"
      · by_cases hg : (jsLeZero (resolvedUserId ev) ||
            jsLeZero (resolvedTokens ev)) = true
        · have h : webhookStatus ⟨true, true, ev⟩ outcome = 200 := by
            simp [webhookStatus, webhookAction, ht, hg]
          refine ⟨Or.inl h, fun hx => ?_, fun hx => ?_, fun _ _ _ => h⟩
          · rw [h] at hx; omega
          · rw [h] at hx; omega
        · have hg' : (jsLeZero (resolvedUserId ev) ||
              jsLeZero (resolvedTokens ev)) = false := by
            rwa [Bool.not_eq_true] at hg
          cases outcome with
          | ok r =>
            have h : webhookStatus ⟨true, true, ev⟩ (.ok r) = 200 := by
              simp [webhookStatus, webhookAction, ht, hg']
            refine ⟨Or.inl h, fun hx => ?_, fun hx => ?_, fun _ _ _ => h⟩
            · rw [h] at hx; omega
            · rw [h] at hx; omega
          | threw e =>
            have h : webhookStatus ⟨true, true, ev⟩ (.threw e) = catchStatus e := by
              simp [webhookStatus, webhookAction, ht, hg']
            by_cases htr : isTransientError e = true
            · have h5 : webhookStatus ⟨true, true, ev⟩ (.threw e) = 500 := by
                rw [h]; simp [catchStatus, htr]
              refine ⟨Or.inr (Or.inr h5), fun _ => Or.inr ⟨e, rfl, htr⟩,
                fun hx => ?_, fun _ _ hall => ?_⟩
              · rw [h5] at hx; omega
              · exact absurd htr (by simp [hall e rfl])
            · have htr' : isTransientError e = false := by
                rwa [Bool.not_eq_true] at htr
              have h2 : webhookStatus ⟨true, true, ev⟩ (.threw e) = 200 := by
                rw [h]; simp [catchStatus, htr']
              refine ⟨Or.inl h2, fun hx => ?_, fun hx => ?_, fun _ _ _ => h2⟩
              · rw [h2] at hx; omega
              · rw [h2] at hx; omega
      · have h : webhookStatus ⟨true, true, ev⟩ outcome = 200 := by
          simp [webhookStatus, webhookAction, ht]
        refine ⟨Or.inl h, fun hx => ?_, fun hx => ?_, fun _ _ _ => h⟩
        · rw [h] at hx; omega
        · rw [h] at hx; omega

lemma credit_completed (st : Store) (sid : String) (u t : Int)
    (s : PaymentSession) (hs : st.sessions sid = some s)
    (hcmp : s.status = .completed) :
    completeStripePaymentAndCredit st sid u t = .ok (st, ⟨true, st.balances u⟩) := by
  unfold completeStripePaymentAndCredit
  rw [hs]
  simp [hcmp]

lemma credit_pending (st : Store) (sid : String) (u t : Int)
    (s : PaymentSession) (hs : st.sessions sid = some s)
    (hp : s.status ≠ .completed) :
    ∃ st', completeStripePaymentAndCredit st sid u t =
        .ok (st', ⟨false, st.balances u + t⟩)
      ∧ st'.sessions sid =
          some { s with status := .completed, completedAt := some st.now }
      ∧ (∀ k, k ≠ sid → st'.sessions k = st.sessions k)
      ∧ st'.balances u = st.balances u + t
      ∧ (∀ v, v ≠ u → st'.balances v = st.balances v)
      ∧ st'.now = st.now := by
  unfold completeStripePaymentAndCredit
  rw [hs]
  simp only [if_neg hp]
  refine ⟨_, rfl, by simp, fun k hk => by simp [hk], by simp,
    fun v hv => by simp [hv], rfl⟩

lemma runCredit_completed (st : Store) (sid : String) (u t : Int)
    (s : PaymentSession) (hs : st.sessions sid = some s)
    (hcmp : s.status = .completed) :
    runCredit st sid u t = (st, some ⟨true, st.balances u⟩) := by
  unfold runCredit
  rw [credit_completed st sid u t s hs hcmp]

lemma runCredit_pending (st : Store) (sid : String) (u t : Int)
    (s : PaymentSession) (hs : st.sessions sid = some s)
    (hp : s.status ≠ .completed) :
    (runCredit st sid u t).2 = some ⟨false, st.balances u + t⟩
    ∧ ((runCredit st sid u t).1).sessions sid =
        some { s with status := .completed, completedAt := some st.now }
    ∧ ((runCredit st sid u t).1).balances u = st.balances u + t := by
  obtain ⟨st', he, h1, _, h3, _, _⟩ := credit_pending st sid u t s hs hp
  unfold runCredit
  rw [he]
  exact ⟨rfl, h1, h3⟩

lemma storeAfter_stable (st : Store) (sid : String) (u t : Int)
    (s : PaymentSession) (hs : st.sessions sid = some s)
    (hp : s.status ≠ .completed) :
    ∀ n, storeAfter st sid u t (n + 1) = storeAfter st sid u t 1 := by
  obtain ⟨_, h1, _⟩ := runCredit_pending st sid u t s hs hp
  intro n
  induction n with
  | zero => rfl
  | succ m ih =>
    have hrc := runCredit_completed (storeAfter st sid u t 1) sid u t
      { s with status := .completed, completedAt := some st.now } h1 rfl
    calc storeAfter st sid u t (m + 2)
        = (runCredit (storeAfter st sid u t (m + 1)) sid u t).1 := rfl
      _ = (runCredit (storeAfter st sid u t 1) sid u t).1 := by rw [ih]
      _ = storeAfter st sid u t 1 := by rw [hrc]

/-- Claim C1: invoking the atomic complete-and-credit operation N ≥ 1
times with identical arguments on a pending session increments the
balance exactly once; every invocation after the first reports
`alreadyCompleted = true`; and the webhook handler answers a delivery
for an already-completed session with 200, leaving the store exactly
as it found it (no further crediting). -/
theorem c1_idempotent_credit (st : Store) (sid : String) (u t : Int)
    (s : PaymentSession) (N : Nat)
    (hs : st.sessions sid = some s) (hp : s.status = .pending) (hN : 1 ≤ N) :
    (storeAfter st sid u t N).balances u = st.balances u + t
    ∧ creditOutcomeAt st sid u t 0 = some ⟨false, st.balances u + t⟩
    ∧ (∀ i, 1 ≤ i → creditOutcomeAt st sid u t i =
        some ⟨true, st.balances u + t⟩)
    ∧ (∀ (st' : Store) (req : WebhookRequest) (u' t' : Int)
        (s' : PaymentSession),
        req.secretConfigured = true → req.signatureValid = true →
        req.event.type = "checkout.session.completed" →
        resolvedUserId req.event = some u' →
        resolvedTokens req.event = some t' → 0 < u' → 0 < t' →
        st'.sessions req.event.sessionId = some s' →
        s'.status = .completed →
        webhookHandler st' req = (200, st')) := by
  have hpne : s.status ≠ .completed := by rw [hp]; simp
  obtain ⟨h0, h1, h2⟩ := runCredit_pending st sid u t s hs hpne
  have hstable := storeAfter_stable st sid u t s hs hpne
  have hbal1 : (storeAfter st sid u t 1).balances u = st.balances u + t := h2
  refine ⟨?_, ?_, ?_, ?_⟩
  · obtain ⟨m, rfl⟩ : ∃ m, N = m + 1 := ⟨N - 1, by omega⟩
    rw [hstable m]
    exact hbal1
  · exact h0
  · intro i hi
    obtain ⟨m, rfl⟩ : ∃ m, i = m + 1 := ⟨i - 1, by omega⟩
    have hrc := runCredit_completed (storeAfter st sid u t 1) sid u t
      { s with status := .completed, completedAt := some st.now } h1 rfl
    unfold creditOutcomeAt
    rw [hstable m, hrc, hbal1]
  · intro st' req u' t' s' hc hsg ht hu htk hup htp hsess hcmp
    have ha := webhookAction_credit req u' t' hc hsg ht hu htk hup htp
    have hop := credit_completed st' req.event.sessionId u' t' s' hsess hcmp
    simp [webhookHandler, ha, hop]

/-- The pending session of the concrete stores below: user 42, amount
1000 recorded at creation. -/
def sessionW : PaymentSession := ⟨42, 1000, .pending, none⟩

/-- A store holding `sessionW` under the key `"cs_w"`. -/
def storeW : Store :=
  ⟨fun k => if k = "cs_w" then some sessionW else none, fun _ => 0, 7⟩

/-- Claim C1 witness: three invocations on a concrete pending session
credit 1000 exactly once, and the second invocation reports
`alreadyCompleted = true`. -/
theorem c1_idempotent_credit_witness :
    (storeAfter storeW "cs_w" 42 1000 3).balances 42 =
      storeW.balances 42 + 1000
    ∧ creditOutcomeAt storeW "cs_w" 42 1000 1 =
        some ⟨true, storeW.balances 42 + 1000⟩ :=
  ⟨(c1_idempotent_credit storeW "cs_w" 42 1000 sessionW 3
      (by decide) rfl (by decide)).1,
   (c1_idempotent_credit storeW "cs_w" 42 1000 sessionW 3
      (by decide) rfl (by decide)).2.2.1 1 le_rfl⟩

/-- A store holding `sessionW` (recorded amount 1000) under the key
`"cs_test"`, the session id `mkEvent` carries. -/
def storeW4 : Store :=
  ⟨fun k => if k = "cs_test" then some sessionW else none, fun _ => 0, 7⟩

/-- Claim C4 counterexample: the session was created recording
`tokenAmount = 1000`, the inbound event claims 500, and the handler
credits 500 — the event's claimed amount, not the amount recorded at
session creation. -/
theorem c4_counterexample :
    storeW4.sessions "cs_test" = some sessionW ∧
    sessionW.tokenAmount = 1000 ∧
    ((webhookHandler storeW4 (reqOk "42" "500")).2).balances 42 = 500 ∧
    (500 : Int) ≠ 1000 := by
  decide

/-- Claim C4 (amended): for every successful reconciliation of a
completion event on a not-yet-completed session, the amount credited
equals the amount claimed in the inbound event's metadata; the
session's recorded `tokenAmount` is not consulted, so the event's
value is trusted when the two conflict. -/
theorem c4_event_amount_credited (st : Store) (req : WebhookRequest)
    (u t : Int) (s : PaymentSession)
    (hc : req.secretConfigured = true) (hsg : req.signatureValid = true)
    (ht : req.event.type = "checkout.session.completed")
    (hu : resolvedUserId req.event = some u)
    (htk : resolvedTokens req.event = some t)
    (hup : 0 < u) (htp : 0 < t)
    (hsess : st.sessions req.event.sessionId = some s)
    (hpend : s.status ≠ .completed) :
    ((webhookHandler st req).2).balances u = st.balances u + t
    ∧ (webhookHandler st req).1 = 200 := by
  have ha := webhookAction_credit req u t hc hsg ht hu htk hup htp
  obtain ⟨st', he, _, _, h3, _, _⟩ :=
    credit_pending st req.event.sessionId u t s hsess hpend
  have hh : webhookHandler st req = (200, st') := by
    simp [webhookHandler, ha, he]
  rw [hh]
  exact ⟨h3, rfl⟩

/-- Claim C4 witness: at the concrete conflicting input the credited
amount is the event's 500, i.e. the starting balance plus 500. -/
theorem c4_event_amount_credited_witness :
    ((webhookHandler storeW4 (reqOk "42" "500")).2).balances 42 =
      storeW4.balances 42 + 500 :=
  (c4_event_amount_credited storeW4 (reqOk "42" "500") 42 500 sessionW
    rfl rfl rfl (by decide) (by decide) (by decide) (by decide)
    (by decide) (by decide)).1

lemma pollStepD_cont (obs : Nat → PollObs) (n : Nat)
    (h : nonTerminalObs (obs n) = true) :
    pollStepD obs ⟨.polling, n⟩ = (⟨.polling, n + 1⟩, some pollIntervalMs) := by
  unfold pollStepD
  dsimp only
  cases ho : obs n with
  | lookupError => simp
  | status s =>
    rw [ho] at h
    unfold nonTerminalObs at h
    simp only [Bool.and_eq_true, Bool.not_eq_true', decide_eq_false_iff_not] at h
    simp [h.1, h.2]

lemma pollStepD_terminal (obs : Nat → PollObs) (st : PollerState)
    (h : st.phase ≠ .polling) : pollStepD obs st = (st, none) := by
  rcases st with ⟨ph, n⟩
  cases ph with
  | polling => exact absurd rfl h
  | succeeded => rfl
  | failedPayment => rfl

lemma pollRun_polling (obs : Nat → PollObs) (k : Nat)
    (hk : ∀ i, i < k → nonTerminalObs (obs i) = true) :
    pollRun obs k = ⟨.polling, k⟩ := by
  induction k with
  | zero => rfl
  | succ n ih =>
    have hn : pollRun obs n = ⟨.polling, n⟩ :=
      ih (fun i hi => hk i (Nat.lt_succ_of_lt hi))
    show (pollStepD obs (pollRun obs n)).1 = _
    rw [hn, pollStepD_cont obs n (hk n (Nat.lt_succ_self n))]

/-- Claim C8: when the session's status becomes `completed` at the
k-th polling cycle (the first k observations being non-terminal), the
poller performs exactly k+1 status lookups, ends in `succeeded`, and
never re-polls; every non-terminal observation reschedules after the
same fixed interval, and a poller in a terminal phase performs no
further lookup and schedules nothing. -/
theorem c8_poller_termination (obs : Nat → PollObs) (k : Nat)
    (hk : ∀ i, i < k → nonTerminalObs (obs i) = true)
    (hc : obs k = .status "completed") :
    pollRun obs (k + 1) = ⟨.succeeded, k + 1⟩
    ∧ (∀ m, pollRun obs (k + 1 + m) = ⟨.succeeded, k + 1⟩)
    ∧ (∀ i, i < k → (pollStepD obs (pollRun obs i)).2 = some pollIntervalMs)
    ∧ (∀ st : PollerState, st.phase ≠ .polling → pollStepD obs st = (st, none)) := by
  have hpk := pollRun_polling obs k hk
  have hstep : pollRun obs (k + 1) = ⟨.succeeded, k + 1⟩ := by
    show (pollStepD obs (pollRun obs k)).1 = _
    rw [hpk]
    unfold pollStepD
    dsimp only
    rw [hc]
    simp
  refine ⟨hstep, ?_, ?_, pollStepD_terminal obs⟩
  · intro m
    induction m with
    | zero => exact hstep
    | succ j ih =>
      show (pollStepD obs (pollRun obs (k + 1 + j))).1 = _
      rw [ih, pollStepD_terminal obs ⟨.succeeded, k + 1⟩ (by simp)]
  · intro i hi
    have hpi := pollRun_polling obs i (fun j hj => hk j (hj.trans hi))
    rw [hpi, pollStepD_cont obs i (hk i hi)]

/-- The observation stream of the C8 witness: `pending` once, then
`completed`. -/
def obsW : Nat → PollObs :=
  fun i => if i = 0 then .status "pending" else .status "completed"

/-- Claim C8 witness: with `completed` observed at the second lookup,
the poller stops in `succeeded` having performed exactly two lookups. -/
theorem c8_poller_termination_witness :
    pollRun obsW 2 = ⟨.succeeded, 2⟩ :=
  (c8_poller_termination obsW 1 (by decide) (by decide)).1

/-- Claim C10: whenever `isProcessing` (or the mutation's `isPending`)
is set, the button is disabled and a click is a no-op, so no second
checkout attempt or polling chain can start from this component
instance; and `isProcessing` is reset to `false` only by observing a
terminal `completed` or `failed` status. -/
theorem c10_button_disabled_invariant (s : ComponentState) :
    (s.isProcessing = true → buttonDisabled s = true)
    ∧ (s.isPending = true → buttonDisabled s = true)
    ∧ (buttonDisabled s = true → uiStep s .click = s)
    ∧ (∀ e, (uiStep s e).isProcessing = false →
        s.isProcessing = false ∨ e = .observeCompleted ∨ e = .observeFailed) := by
  rcases s with ⟨p, pr⟩
  cases p <;> cases pr <;> decide

end HomeworkHelper
